import Mathlib

/-!
Verification development for the Ray client-server proxier
(src/python/ray/util/client/server/proxier.py).

The Python source is shallowly embedded: pure fragments become Lean
functions, the mutable state of the proxy manager becomes an explicit
state record threaded through the operations, Python exceptions become
Except values, and real-time or OS observations (socket probe bind,
child process poll, future resolution, channel readiness, process
command lines) become explicit boolean observations supplied as inputs.
Wire-format message types and the pickle codec live outside the source
core, so they are modelled from the specification where noted.
-/

/-- Source constant MIN_SPECIFIC_SERVER_PORT (proxier.py line 29). -/
def MIN_SPECIFIC_SERVER_PORT : Nat := 23000

/-- Source constant MAX_SPECIFIC_SERVER_PORT (proxier.py line 30). -/
def MAX_SPECIFIC_SERVER_PORT : Nat := 24000

/-- Size of the closed-open port range handed to the pool at start-up. -/
def pool_size : Nat := MAX_SPECIFIC_SERVER_PORT - MIN_SPECIFIC_SERVER_PORT

/-- Python exceptions visible in the embedded fragments: the RuntimeError
raised by a failed port search, and the TimeoutError raised by a bounded
future wait. -/
inductive PyError where
  | runtimeError (msg : String)
  | timeoutError
deriving DecidableEq

/-- gRPC status codes the proxier can set on a call context. -/
inductive GrpcStatus where
  | invalidArgument
  | notFound
  | aborted
  | resourceExhausted
  | unknown
deriving DecidableEq

/-- Follows the spec words, for comparison with the source embedding: the
spec promises that pool exhaustion surfaces as the gRPC status
ResourceExhausted.  The source instead raises a RuntimeError exception
and never produces this status. -/
def exhaustion_status_spec : GrpcStatus := GrpcStatus.resourceExhausted

/-- Embeds the SpecificServer record (proxier.py lines 48-62).  The
process_handle_future becomes the boolean observation `resolved` (the
future has been given its result; for the shutdown hook this means it
resolved within the 0.1 s wait bound), the child process poll() becomes
`exited` (poll returned a non-None exit status), and the eagerly created
gRPC channel becomes `channel_ready` (the channel readiness future
completes within CHECK_CHANNEL_TIMEOUT_S).  The TCP port is kept as is. -/
structure SpecificServer where
  port : Nat
  resolved : Bool
  exited : Bool
  channel_ready : Bool
deriving DecidableEq

/-- Embeds the mutable state owned by ProxyManager (proxier.py lines
65-78): the client-id keyed dictionary of SpecificServer records and the
free port list.  The Python dict is embedded as an association list with
unique keys in insertion order. -/
structure ProxyManager where
  servers : List (String × SpecificServer)
  free_ports : List Nat
deriving DecidableEq

/-- State of a fresh ProxyManager: no servers, and the free list
initialised to list(range(MIN_SPECIFIC_SERVER_PORT,
MAX_SPECIFIC_SERVER_PORT)) (proxier.py lines 70-71). -/
def proxy_manager_initial : ProxyManager :=
  ProxyManager.mk []
    (List.range' MIN_SPECIFIC_SERVER_PORT
      (MAX_SPECIFIC_SERVER_PORT - MIN_SPECIFIC_SERVER_PORT))

/-- Python dict assignment `self.servers[client_id] = specific_server`:
replace the value in place when the key is present, append otherwise. -/
def dict_set : List (String × SpecificServer) → String → SpecificServer →
    List (String × SpecificServer)
  | [], key, val => [(key, val)]
  | (k, v) :: rest, key, val =>
      if k = key then (k, val) :: rest else (k, v) :: dict_set rest key val

/-- Loop body of _get_unused_port (proxier.py lines 80-97).  The fuel
argument embeds `for _ in range(num_ports)`; `probe` is the outcome of
the advisory socket bind on each port.  A port whose probe bind raises
OSError is appended to the tail and the next is tried; a port whose
probe succeeds is returned, removed from the free list.  When the fuel
runs out the source raises
RuntimeError("Unable to succeed in selecting a random port."). -/
def getUnusedPortGo (probe : Nat → Bool) :
    Nat → List Nat → Except PyError (Nat × List Nat)
  | 0, _ =>
      Except.error (PyError.runtimeError
        "Unable to succeed in selecting a random port.")
  | _ + 1, [] =>
      Except.error (PyError.runtimeError
        "Unable to succeed in selecting a random port.")
  | n + 1, port :: rest =>
      if probe port then Except.ok (port, rest)
      else getUnusedPortGo probe n (rest ++ [port])

/-- Embeds ProxyManager._get_unused_port (proxier.py lines 80-97): the
loop runs at most `len(self._free_ports)` iterations over the rotating
free list. -/
def _get_unused_port (probe : Nat → Bool) (free : List Nat) :
    Except PyError (Nat × List Nat) :=
  getUnusedPortGo probe free.length free

/-- Embeds the state effect of ProxyManager.start_specific_server
(proxier.py lines 111-159): acquire a port, build a SpecificServer whose
future is unresolved, install it under client_id (overwriting any prior
record), spawn the child, wait for the startup fence, then resolve the
future.  The spawn and the fence wait are summarised by the two boolean
observations `child_exited` (poll() at the next observation point) and
`channel_ready`; the record is installed with resolved := true because
handle_ready.set_result(proc) runs before the function returns.  A
RuntimeError raised by _get_unused_port propagates uncaught. -/
def start_specific_server (probe : Nat → Bool) (m : ProxyManager)
    (client_id : String) (child_exited channel_ready : Bool) :
    Except PyError ProxyManager :=
  match _get_unused_port probe m.free_ports with
  | Except.error e => Except.error e
  | Except.ok (port, free) =>
      Except.ok (ProxyManager.mk
        (dict_set m.servers client_id
          (SpecificServer.mk port true child_exited channel_ready))
        free)

/-- Result of one sweep of the reaper thread: either the sweep blocked
inside process_handle() on a record whose future was still unresolved
(future.result() with no timeout), or it completed with the updated
manager state. -/
inductive SweepResult where
  | blocked (client_id : String)
  | done (m : ProxyManager)
deriving DecidableEq

/-- Loop body of one _check_processes sweep (proxier.py lines 193-201):
iterate the records in order; for each, process_handle() blocks until
the process future resolves, then the child is polled; an exited child
has its record removed and its port appended to the free list. -/
def sweepGo : List (String × SpecificServer) →
    List (String × SpecificServer) → List Nat → SweepResult
  | [], kept, free => SweepResult.done (ProxyManager.mk kept free)
  | (client_id, server) :: rest, kept, free =>
      if server.resolved then
        if server.exited then sweepGo rest kept (free ++ [server.port])
        else sweepGo rest (kept ++ [(client_id, server)]) free
      else SweepResult.blocked client_id

/-- Embeds one sweep of ProxyManager._check_processes (proxier.py lines
189-203), the body executed under the lock every
CHECK_PROCESS_INTERVAL_S seconds. -/
def _check_processes_sweep (m : ProxyManager) : SweepResult :=
  sweepGo m.servers [] m.free_ports

/-- Embeds ProxyManager._cleanup (proxier.py lines 205-216): for each
record, try wait_ready(0.1) and then process_handle().process.kill();
only TimeoutError is caught (the record whose future did not resolve
within the bound is skipped); any other exception would propagate.  The
result lists the ports of the children that received the kill signal, in
iteration order. -/
def _cleanup : List (String × SpecificServer) → Except PyError (List Nat)
  | [] => Except.ok []
  | (_, server) :: rest =>
      match (if server.resolved then Except.ok server.port
             else Except.error PyError.timeoutError) with
      | Except.ok port => (_cleanup rest).map (fun ports => port :: ports)
      | Except.error PyError.timeoutError => _cleanup rest
      | Except.error (PyError.runtimeError msg) =>
          Except.error (PyError.runtimeError msg)

/-- A gRPC unary call context: the invocation metadata and the status
code last set with context.set_code (the status a terminating call
reports is the last one set). -/
structure RpcContext where
  metadata : List (String × String)
  statusCode : Option GrpcStatus
deriving DecidableEq

/-- context.set_code: overwrite the status code. -/
def set_code (context : RpcContext) (code : GrpcStatus) : RpcContext :=
  RpcContext.mk context.metadata (some code)

/-- Lookup in the Python dict built by
`{k: v for k, v in context.invocation_metadata()}`: with duplicate keys
the last pair wins. -/
def metaGet (metadata : List (String × String)) (key : String) :
    Option String :=
  (metadata.reverse.find? (fun kv => kv.1 == key)).map Prod.snd

/-- Embeds _get_client_id_from_context (proxier.py lines 35-45):
`metadata.get("client_id") or ""` is empty when the key is absent or its
value is empty; in that case the status code INVALID_ARGUMENT is set and
the empty id is returned anyway. -/
def _get_client_id_from_context (context : RpcContext) :
    String × RpcContext :=
  let client_id := (metaGet context.metadata "client_id").getD ""
  if client_id = "" then
    (client_id, set_code context GrpcStatus.invalidArgument)
  else (client_id, context)

/-- Embeds ProxyManager._get_server_for_client (proxier.py lines
161-167): a plain dict lookup (logging only on a miss). -/
def _get_server_for_client (m : ProxyManager) (client_id : String) :
    Option SpecificServer :=
  (m.servers.find? (fun kv => kv.1 == client_id)).map Prod.snd

/-- Result of ProxyManager.get_channel: no record or channel readiness
deadline exceeded gives None; a record whose process future is still
unresolved makes wait_ready() block. -/
inductive ChannelResult where
  | blocked
  | noChannel
  | chan (server : SpecificServer)
deriving DecidableEq

/-- Embeds ProxyManager.get_channel (proxier.py lines 169-187): look up
the record (None on a miss), block in server.wait_ready() until the
process future resolves, then wait up to CHECK_CHANNEL_TIMEOUT_S for the
channel to become ready, returning None on that deadline. -/
def get_channel (m : ProxyManager) (client_id : String) : ChannelResult :=
  match _get_server_for_client m client_id with
  | none => ChannelResult.noChannel
  | some server =>
      if server.resolved then
        if server.channel_ready then ChannelResult.chan server
        else ChannelResult.noChannel
      else ChannelResult.blocked

/-- Outcome of a unary driver RPC handled by the proxy: the request was
forwarded to the named method of the backend stub with the given
metadata, or the handler returned None, or it blocked inside
wait_ready(), or (ClusterInfo PING only) it answered locally with a JSON
body. -/
inductive UnaryOutcome where
  | forwarded (method : String) (request : Nat) (port : Nat)
      (metadata : List (String × String))
  | noReturn
  | blockedOnStartup
  | localJson (body : String)
deriving DecidableEq

/-- Full result of a unary handler: its outcome, the final call context,
and the manager state after the call (the unary path never mutates it). -/
structure UnaryCall where
  outcome : UnaryOutcome
  context : RpcContext
  proxy_manager : ProxyManager
deriving DecidableEq

/-- Embeds json.dumps of the empty object, used by the local PING
answer. -/
def json_dumps_empty_object : String := "\x7b\x7d"

namespace RayletServicerProxy

/-- Embeds RayletServicerProxy._call_inner_function (proxier.py lines
225-237): read the client id from the context (setting
INVALID_ARGUMENT when it is missing), fetch the backend channel, set
NOT_FOUND and return None when there is none, otherwise forward the
request to the stub method named `method` with the client_id metadata
attached.  Requests are opaque and represented by a number. -/
def _call_inner_function (m : ProxyManager) (context : RpcContext)
    (request : Nat) (method : String) : UnaryCall :=
  match _get_client_id_from_context context with
  | (client_id, context1) =>
    match get_channel m client_id with
    | ChannelResult.blocked =>
        UnaryCall.mk UnaryOutcome.blockedOnStartup context1 m
    | ChannelResult.noChannel =>
        UnaryCall.mk UnaryOutcome.noReturn
          (set_code context1 GrpcStatus.notFound) m
    | ChannelResult.chan server =>
        UnaryCall.mk
          (UnaryOutcome.forwarded method request server.port
            [("client_id", client_id)])
          context1 m

/-- Handler Init (proxier.py lines 239-240). -/
def Init (m : ProxyManager) (context : RpcContext) (request : Nat) :
    UnaryCall :=
  _call_inner_function m context request "Init"

/-- Handler PrepRuntimeEnv (proxier.py lines 242-244). -/
def PrepRuntimeEnv (m : ProxyManager) (context : RpcContext)
    (request : Nat) : UnaryCall :=
  _call_inner_function m context request "PrepRuntimeEnv"

/-- Handler KVPut (proxier.py lines 246-247). -/
def KVPut (m : ProxyManager) (context : RpcContext) (request : Nat) :
    UnaryCall :=
  _call_inner_function m context request "KVPut"

/-- Handler KVGet (proxier.py lines 249-250). -/
def KVGet (m : ProxyManager) (context : RpcContext) (request : Nat) :
    UnaryCall :=
  _call_inner_function m context request "KVGet"

/-- Handler KVDel (proxier.py lines 252-253).  The source passes the
literal "KVGet" to _call_inner_function here. -/
def KVDel (m : ProxyManager) (context : RpcContext) (request : Nat) :
    UnaryCall :=
  _call_inner_function m context request "KVGet"

/-- Handler KVList (proxier.py lines 255-256). -/
def KVList (m : ProxyManager) (context : RpcContext) (request : Nat) :
    UnaryCall :=
  _call_inner_function m context request "KVList"

/-- Handler KVExists (proxier.py lines 258-260). -/
def KVExists (m : ProxyManager) (context : RpcContext) (request : Nat) :
    UnaryCall :=
  _call_inner_function m context request "KVExists"

/-- Handler Terminate (proxier.py lines 272-273). -/
def Terminate (m : ProxyManager) (context : RpcContext) (request : Nat) :
    UnaryCall :=
  _call_inner_function m context request "Terminate"

/-- Handler GetObject (proxier.py lines 275-276). -/
def GetObject (m : ProxyManager) (context : RpcContext) (request : Nat) :
    UnaryCall :=
  _call_inner_function m context request "GetObject"

/-- Handler PutObject (proxier.py lines 278-280). -/
def PutObject (m : ProxyManager) (context : RpcContext) (request : Nat) :
    UnaryCall :=
  _call_inner_function m context request "PutObject"

/-- Handler WaitObject (proxier.py lines 282-283). -/
def WaitObject (m : ProxyManager) (context : RpcContext) (request : Nat) :
    UnaryCall :=
  _call_inner_function m context request "WaitObject"

/-- Handler Schedule (proxier.py lines 285-286). -/
def Schedule (m : ProxyManager) (context : RpcContext) (request : Nat) :
    UnaryCall :=
  _call_inner_function m context request "Schedule"

end RayletServicerProxy

/-- Modelled from the spec: the type field of a ClusterInfo request is
an enum from the external wire-format definitions; only the PING value
matters to the proxier. -/
inductive ClusterInfoType where
  | PING
  | other (tag : Nat)
deriving DecidableEq

namespace RayletServicerProxy

/-- Handler ClusterInfo (proxier.py lines 262-270): a request whose type
is PING is answered locally with json.dumps of the empty object before
anything else happens; every other request goes through
_call_inner_function like the rest of the table. -/
def ClusterInfo (m : ProxyManager) (context : RpcContext) (request : Nat)
    (requestType : ClusterInfoType) : UnaryCall :=
  if requestType = ClusterInfoType.PING then
    UnaryCall.mk (UnaryOutcome.localJson json_dumps_empty_object) context m
  else _call_inner_function m context request "ClusterInfo"

end RayletServicerProxy

/-- Modelled from the spec: JobConfig is imported from ray.job_config,
outside the source core; the spec uses it only as an opaque value with a
default constructor and a serialized runtime environment, so it is
modelled as that one string. -/
structure JobConfig where
  runtime_env : String
deriving DecidableEq

/-- The value built by the default constructor JobConfig(). -/
def defaultJobConfig : JobConfig := JobConfig.mk ""

/-- Modelled from the spec: the InitRequest wire message is an external
collaborator; the proxier touches only its serialized job_config bytes
field, modelled as a list of byte values. -/
structure InitRequest where
  job_config : List Nat
deriving DecidableEq

/-- Modelled from the spec: the oneof discriminator of a DataRequest.
The proxier only distinguishes the init variant from everything else. -/
inductive DataVariant where
  | init (request : InitRequest)
  | other (tag : Nat)
deriving DecidableEq

/-- Modelled from the spec: a DataRequest wire message carries the oneof
payload (None when no variant is set, as reported by WhichOneof) plus
further fields untouched by the proxier, represented by req_id. -/
structure DataRequest where
  req_id : Nat
  variant : Option DataVariant
deriving DecidableEq

/-- Embeds ray_client_server_env_prep (proxier.py lines 306-307): the
pluggable environment preparation hook, the identity in the source. -/
def ray_client_server_env_prep (job_config : JobConfig) : JobConfig :=
  job_config

/-- Embeds prepare_runtime_init_req (proxier.py lines 310-329) over the
inbound message sequence: consume the first message, assert its
discriminator is init (None on the assertion failure or on an exhausted
iterator), decode its job_config with `loads` (an empty bytes field is
falsy, so the default JobConfig is substituted), pass the result through
the env-prep hook, re-encode with `dumps`, and replace the init
submessage of the first message by a fresh InitRequest holding only the
re-encoded job_config (init_req.init.CopyFrom).  The pickle codec is an
external collaborator, so `loads` and `dumps` are parameters.  Returns
the modified first message, the new job config, and the unread remainder
of the sequence. -/
def prepare_runtime_init_req (loads : List Nat → JobConfig)
    (dumps : JobConfig → List Nat) :
    List DataRequest → Option ((DataRequest × JobConfig) × List DataRequest)
  | [] => none
  | init_req :: rest =>
      match init_req.variant with
      | some (DataVariant.init req) =>
          let job_config :=
            if req.job_config = [] then defaultJobConfig
            else loads req.job_config
          let new_job_config := ray_client_server_env_prep job_config
          let modified_init_req := InitRequest.mk (dumps new_job_config)
          some ((DataRequest.mk init_req.req_id
              (some (DataVariant.init modified_init_req)), new_job_config),
            rest)
      | _ => none

/-- Outcome of DataServicerProxy.Datapath as seen by the backend: the
stream was closed before splicing (missing client id, bad first message,
failed spawn, missing channel), or the backend Datapath stream was
opened and fed the given message sequence. -/
inductive DatapathOutcome where
  | closedNoClientId
  | protocolError
  | abortedStartup
  | channelNotFound
  | spliced (backendInbound : List DataRequest)
deriving DecidableEq

namespace DataServicerProxy

/-- Embeds DataServicerProxy.Datapath (proxier.py lines 336-370),
flattened to the sequence delivered to the backend stream.  An empty
client id closes the stream at once.  The first inbound message is
rewritten by prepare_runtime_init_req and put on the splice queue before
the forwarder thread for the remaining messages is started; the
forwarder (forward_streaming_requests, lines 289-303) then puts every
remaining inbound message on the queue in order and finally the None
sentinel, and the backend stream reads the queue up to the sentinel, so
the backend receives the rewritten first message followed by the
remaining messages in inbound order.  `start_ok` is the boolean returned
by start_specific_server (False closes with ABORTED) and `chan_ok`
whether get_channel returned a channel (None closes with NOT_FOUND). -/
def Datapath (loads : List Nat → JobConfig) (dumps : JobConfig → List Nat)
    (client_id : String) (start_ok chan_ok : Bool)
    (request_iterator : List DataRequest) : DatapathOutcome :=
  if client_id = "" then DatapathOutcome.closedNoClientId
  else
    match prepare_runtime_init_req loads dumps request_iterator with
    | none => DatapathOutcome.protocolError
    | some ((modified_init_req, _job_config), rest) =>
        if !start_ok then DatapathOutcome.abortedStartup
        else if !chan_ok then DatapathOutcome.channelNotFound
        else DatapathOutcome.spliced (modified_init_req :: rest)

end DataServicerProxy

/-- Embeds the startup fence test inside start_specific_server
(proxier.py line 151): `len(cmd) > 3 and cmd[2] ==
"ray.util.client.server"` on the command line read from psutil.  The
short-circuit keeps cmd[2] from being read when the list is short, so a
total lookup with a default is equivalent. -/
def fence_crossed (cmd : List String) : Bool :=
  decide (3 < cmd.length) && (cmd.getD 2 "" == "ray.util.client.server")

/-- How the polling loop of start_specific_server ends on a given finite
trace of observations: the child exited (poll() not None), the fence
test passed, or the trace ran out with the loop still polling. -/
inductive StartupPollExit where
  | exited
  | fence_passed
  | still_polling
deriving DecidableEq

/-- Embeds the polling loop of start_specific_server (proxier.py lines
145-155) over a finite trace of (poll result, command line) observations
taken 0.5 s apart: the loop breaks when the child has exited or when the
fence test passes, and otherwise keeps polling. -/
def startup_poll_loop :
    List (Option Int × List String) → StartupPollExit
  | [] => StartupPollExit.still_polling
  | (poll_result, cmd) :: rest =>
      if poll_result.isSome then StartupPollExit.exited
      else if fence_crossed cmd then StartupPollExit.fence_passed
      else startup_poll_loop rest

/-- Port count tracked by the conservation invariant: free ports plus
live records. -/
def numPorts (m : ProxyManager) : Nat :=
  m.free_ports.length + m.servers.length

/-- A successful port search removes exactly one port from the rotating
free list. -/
theorem getUnusedPortGo_ok_length (probe : Nat → Bool) (n : Nat) :
    ∀ (free free' : List Nat) (p : Nat),
      getUnusedPortGo probe n free = Except.ok (p, free') →
      free'.length + 1 = free.length := by
  induction n with
  | zero =>
      intro free free' p h
      simp [getUnusedPortGo] at h
  | succ n ih =>
      intro free free' p h
      cases free with
      | nil => simp [getUnusedPortGo] at h
      | cons q rest =>
          cases hq : probe q with
          | true =>
              simp [getUnusedPortGo, hq] at h
              obtain ⟨-, h2⟩ := h
              subst h2
              rfl
          | false =>
              simp [getUnusedPortGo, hq] at h
              have h3 := ih (rest ++ [q]) free' p h
              simp [List.length_append] at h3
              simpa using h3

/-- When every port in the rotating free list fails the probe bind, the
search runs out of fuel and raises the RuntimeError. -/
theorem getUnusedPortGo_all_fail (probe : Nat → Bool) (n : Nat) :
    ∀ free : List Nat, (∀ p ∈ free, probe p = false) →
      getUnusedPortGo probe n free
        = Except.error (PyError.runtimeError
            "Unable to succeed in selecting a random port.") := by
  induction n with
  | zero => intro free _; simp [getUnusedPortGo]
  | succ n ih =>
      intro free h
      cases free with
      | nil => simp [getUnusedPortGo]
      | cons q rest =>
          have hq : probe q = false := h q (List.mem_cons_self q rest)
          simp only [getUnusedPortGo, hq, Bool.false_eq_true, if_false]
          apply ih
          intro p hp
          rcases List.mem_append.1 hp with hp | hp
          · exact h p (List.mem_cons_of_mem q hp)
          · rcases List.mem_singleton.1 hp with rfl
            exact hq

/-- Dict assignment over a present key keeps the record count. -/
theorem dict_set_length_of_mem (val : SpecificServer) :
    ∀ (s : List (String × SpecificServer)) (key : String),
      key ∈ s.map Prod.fst → (dict_set s key val).length = s.length := by
  intro s
  induction s with
  | nil => intro key h; simp at h
  | cons kv rest ih =>
      obtain ⟨k, v⟩ := kv
      intro key h
      by_cases hk : k = key
      · simp [dict_set, hk]
      · have hmem : key ∈ rest.map Prod.fst := by
          simp only [List.map_cons, List.mem_cons] at h
          rcases h with h | h
          · exact absurd h.symm hk
          · exact h
        simp only [dict_set, hk, if_false, List.length_cons]
        rw [ih key hmem]

/-- A sweep that runs to completion conserves the total count of free
ports plus live records. -/
theorem sweepGo_done_count :
    ∀ (pending kept : List (String × SpecificServer)) (free : List Nat)
      (m' : ProxyManager),
      sweepGo pending kept free = SweepResult.done m' →
      m'.servers.length + m'.free_ports.length
        = pending.length + kept.length + free.length := by
  intro pending
  induction pending with
  | nil =>
      intro kept free m' h
      simp [sweepGo] at h
      subst h
      simp [Nat.add_comm]
  | cons hd rest ih =>
      obtain ⟨cid, server⟩ := hd
      intro kept free m' h
      cases h1 : server.resolved with
      | false => simp [sweepGo, h1] at h
      | true =>
          cases h2 : server.exited with
          | true =>
              simp only [sweepGo, h1, h2, if_true] at h
              have h3 := ih kept (free ++ [server.port]) m' h
              simp only [List.length_append, List.length_cons,
                List.length_nil] at h3 ⊢
              omega
          | false =>
              simp only [sweepGo, h1, h2, Bool.false_eq_true, if_true,
                if_false] at h
              have h3 := ih (kept ++ [(cid, server)]) free m' h
              simp only [List.length_append, List.length_cons,
                List.length_nil] at h3 ⊢
              omega

/-- When every pending record has a resolved future, the sweep completes
and removes exactly the exited records, releasing their ports in
iteration order. -/
theorem sweepGo_all_resolved :
    ∀ (pending kept : List (String × SpecificServer)) (free : List Nat),
      (∀ p ∈ pending, p.2.resolved = true) →
      sweepGo pending kept free
        = SweepResult.done (ProxyManager.mk
            (kept ++ pending.filter (fun p => !p.2.exited))
            (free ++ (pending.filter (fun p => p.2.exited)).map
              (fun p => p.2.port))) := by
  intro pending
  induction pending with
  | nil => intro kept free _; simp [sweepGo]
  | cons hd rest ih =>
      obtain ⟨cid, server⟩ := hd
      intro kept free h
      have h1 : server.resolved = true :=
        h (cid, server) (List.mem_cons_self _ _)
      have hrest : ∀ p ∈ rest, p.2.resolved = true :=
        fun p hp => h p (List.mem_cons_of_mem _ hp)
      cases h2 : server.exited with
      | true =>
          simp only [sweepGo, h1, h2, if_true]
          rw [ih kept (free ++ [server.port]) hrest]
          simp [List.filter_cons, h2, List.append_assoc]
      | false =>
          simp only [sweepGo, h1, h2, Bool.false_eq_true, if_true, if_false]
          rw [ih (kept ++ [(cid, server)]) free hrest]
          simp [List.filter_cons, h2, List.append_assoc]

/-- A record whose future is unresolved blocks the sweep at that
record. -/
theorem sweepGo_blocked (cid : String) (server : SpecificServer)
    (rest kept : List (String × SpecificServer)) (free : List Nat)
    (h : server.resolved = false) :
    sweepGo ((cid, server) :: rest) kept free
      = SweepResult.blocked cid := by
  simp [sweepGo, h]

/-- prepare_runtime_init_req consumes exactly the first message: on
success the returned remainder is the inbound tail. -/
theorem prepare_runtime_init_req_rest (loads : List Nat → JobConfig)
    (dumps : JobConfig → List Nat) (m : DataRequest)
    (ms : List DataRequest) (p : DataRequest × JobConfig)
    (rest : List DataRequest)
    (h : prepare_runtime_init_req loads dumps (m :: ms) = some (p, rest)) :
    rest = ms := by
  cases hv : m.variant with
  | none => simp [prepare_runtime_init_req, hv] at h
  | some v =>
      cases v with
      | init req =>
          simp only [prepare_runtime_init_req, hv, Option.some.injEq,
            Prod.mk.injEq] at h
          exact h.2.symm
      | other tag => simp [prepare_runtime_init_req, hv] at h

/-- Dict assignment over an absent key appends one record. -/
theorem dict_set_length_of_not_mem (val : SpecificServer) :
    ∀ (s : List (String × SpecificServer)) (key : String),
      key ∉ s.map Prod.fst →
      (dict_set s key val).length = s.length + 1 := by
  intro s
  induction s with
  | nil => intro key _; rfl
  | cons kv rest ih =>
      obtain ⟨k, v⟩ := kv
      intro key h
      simp only [List.map_cons, List.mem_cons] at h
      push_neg at h
      obtain ⟨h1, h2⟩ := h
      have hk : ¬ k = key := fun hkk => h1 hkk.symm
      simp only [dict_set, hk, if_false, List.length_cons]
      rw [ih key h2]

/-- Claim C1 (code_bug evaluation): the inbound KVDel handler does not
forward to the backend stub method of the same name.  With a client id
"a" present and a ready backend on port 23000, the KVDel handler
forwards the request to the backend stub method "KVGet", which differs
from the inbound method name "KVDel"; every other entry of the method
table passes its own name.  This contradicts the handler declaring a
KVDelResponse return. -/
theorem KVDel_forwarded_to_backend_KVGet :
    RayletServicerProxy.KVDel
        (ProxyManager.mk [("a", SpecificServer.mk 23000 true false true)] [])
        (RpcContext.mk [("client_id", "a")] none) 7
      = UnaryCall.mk
          (UnaryOutcome.forwarded "KVGet" 7 23000 [("client_id", "a")])
          (RpcContext.mk [("client_id", "a")] none)
          (ProxyManager.mk [("a", SpecificServer.mk 23000 true false true)] [])
    ∧ ("KVGet" : String) ≠ "KVDel" :=
  ⟨rfl, by decide⟩

/-- Claim C2 (counterexample): a unary GetObject with no metadata does
not terminate with InvalidArgument: the status set by
_get_client_id_from_context is later overwritten by the failed channel
lookup, so the call terminates with NotFound. -/
theorem missing_client_id_yields_notFound_not_invalidArgument :
    (RayletServicerProxy.GetObject (ProxyManager.mk [] [])
        (RpcContext.mk [] none) 0).context.statusCode
      = some GrpcStatus.notFound
    ∧ some GrpcStatus.notFound ≠ some GrpcStatus.invalidArgument :=
  ⟨rfl, by decide⟩

/-- Claim C2 (amended): for every unary driver RPC going through
_call_inner_function with absent or empty client_id metadata (and no
backend record under the empty id, which the stream servicers never
create), the handler first sets InvalidArgument, then the channel lookup
for the empty id fails and overwrites the status with NotFound; the
handler returns None and the manager state is unchanged, so no backend
record is created. -/
theorem missing_client_id_sets_invalidArgument_then_notFound
    (m : ProxyManager) (context : RpcContext) (request : Nat)
    (method : String)
    (hmeta : (metaGet context.metadata "client_id").getD "" = "")
    (hnone : _get_server_for_client m "" = none) :
    RayletServicerProxy._call_inner_function m context request method
      = UnaryCall.mk UnaryOutcome.noReturn
          (set_code (set_code context GrpcStatus.invalidArgument)
            GrpcStatus.notFound)
          m := by
  simp [RayletServicerProxy._call_inner_function,
    _get_client_id_from_context, get_channel, hmeta, hnone]

/-- Witness for the amended claim C2 at a concrete input. -/
theorem missing_client_id_sets_invalidArgument_then_notFound_witness :
    RayletServicerProxy._call_inner_function (ProxyManager.mk [] [])
        (RpcContext.mk [] none) 0 "GetObject"
      = UnaryCall.mk UnaryOutcome.noReturn
          (RpcContext.mk [] (some GrpcStatus.notFound))
          (ProxyManager.mk [] []) :=
  missing_client_id_sets_invalidArgument_then_notFound
    (ProxyManager.mk [] []) (RpcContext.mk [] none) 0 "GetObject" rfl rfl

set_option maxRecDepth 8000 in
/-- Claim C3 (counterexample): starting from the initial manager state,
two start_specific_server calls for the same client id "a" (all probe
binds succeeding, prior child still running) leave 998 free ports and
one live record: the sum 999 falls short of the pool size 1000, because
the overwritten record's port is returned to neither side. -/
theorem overwrite_leaks_port_counterexample :
    ((start_specific_server (fun _ => true) proxy_manager_initial "a"
          false true).bind
        (fun m => start_specific_server (fun _ => true) m "a" false true)).map
        numPorts
      = Except.ok 999
    ∧ (999 : Nat) ≠ pool_size :=
  ⟨rfl, by decide⟩

/-- Claim C3 (amended): the conservation sum of free ports plus live
records is preserved by every completed reaper sweep and by every
start_specific_server call for a client id with no live record; but a
start_specific_server call that overwrites an existing record for the
same id decreases the sum by one, permanently leaking the prior record's
port. -/
theorem port_conservation_without_overwrite :
    (∀ (m m' : ProxyManager),
        _check_processes_sweep m = SweepResult.done m' →
        numPorts m' = numPorts m)
    ∧ (∀ (probe : Nat → Bool) (m : ProxyManager) (cid : String)
        (ex ch : Bool) (m' : ProxyManager),
        cid ∉ m.servers.map Prod.fst →
        start_specific_server probe m cid ex ch = Except.ok m' →
        numPorts m' = numPorts m)
    ∧ (∀ (probe : Nat → Bool) (m : ProxyManager) (cid : String)
        (ex ch : Bool) (m' : ProxyManager),
        cid ∈ m.servers.map Prod.fst →
        start_specific_server probe m cid ex ch = Except.ok m' →
        numPorts m' + 1 = numPorts m) := by
  refine ⟨?_, ?_, ?_⟩
  · intro m m' h
    have h2 := sweepGo_done_count m.servers [] m.free_ports m' h
    simp only [List.length_nil, Nat.add_zero] at h2
    simp only [numPorts]
    omega
  · intro probe m cid ex ch m' hmem h
    unfold start_specific_server at h
    cases hport : _get_unused_port probe m.free_ports with
    | error e => rw [hport] at h; exact absurd h (by simp)
    | ok pf =>
        obtain ⟨port, free⟩ := pf
        rw [hport] at h
        simp only [Except.ok.injEq] at h
        subst h
        have hlen := getUnusedPortGo_ok_length probe m.free_ports.length
          m.free_ports free port hport
        have hdict := dict_set_length_of_not_mem
          (SpecificServer.mk port true ex ch) m.servers cid hmem
        simp only [numPorts, hdict]
        omega
  · intro probe m cid ex ch m' hmem h
    unfold start_specific_server at h
    cases hport : _get_unused_port probe m.free_ports with
    | error e => rw [hport] at h; exact absurd h (by simp)
    | ok pf =>
        obtain ⟨port, free⟩ := pf
        rw [hport] at h
        simp only [Except.ok.injEq] at h
        subst h
        have hlen := getUnusedPortGo_ok_length probe m.free_ports.length
          m.free_ports free port hport
        have hdict := dict_set_length_of_mem
          (SpecificServer.mk port true ex ch) m.servers cid hmem
        simp only [numPorts, hdict]
        omega

/-- Witness for the amended claim C3: a start_specific_server call that
overwrites the record for "a" loses one port from the conservation
sum. -/
theorem port_conservation_without_overwrite_witness :
    numPorts (ProxyManager.mk
        [("a", SpecificServer.mk 23001 true false true)] []) + 1
      = numPorts (ProxyManager.mk
        [("a", SpecificServer.mk 23000 true false true)] [23001]) :=
  port_conservation_without_overwrite.2.2 (fun _ => true)
    (ProxyManager.mk [("a", SpecificServer.mk 23000 true false true)]
      [23001])
    "a" false true
    (ProxyManager.mk [("a", SpecificServer.mk 23001 true false true)] [])
    (by decide) rfl

/-- Claim C4 (counterexample): with a pool of two ports whose probe
binds all fail, acquiring a port does not fail with the status
ResourceExhausted: the search raises
RuntimeError("Unable to succeed in selecting a random port."), which
propagates uncaught out of start_specific_server; no gRPC status code is
set on this path, so the promised exhaustion_status_spec never
appears. -/
theorem port_exhaustion_raises_RuntimeError :
    start_specific_server (fun _ => false)
        (ProxyManager.mk [] [23000, 23001]) "a" false true
      = Except.error (PyError.runtimeError
          "Unable to succeed in selecting a random port.")
    ∧ exhaustion_status_spec = GrpcStatus.resourceExhausted :=
  ⟨rfl, rfl⟩

/-- Claim C4 (amended): when the port pool is exhausted (the free list
is empty, or every port in it fails the probe bind), _get_unused_port
raises a RuntimeError and the exception propagates uncaught from
start_specific_server to its caller; no ResourceExhausted status is
produced anywhere on this path. -/
theorem port_exhaustion_error_propagates_from_start
    (probe : Nat → Bool) (m : ProxyManager) (cid : String)
    (ex ch : Bool)
    (h : ∀ p ∈ m.free_ports, probe p = false) :
    start_specific_server probe m cid ex ch
      = Except.error (PyError.runtimeError
          "Unable to succeed in selecting a random port.") := by
  unfold start_specific_server _get_unused_port
  rw [getUnusedPortGo_all_fail probe m.free_ports.length m.free_ports h]

/-- Witness for the amended claim C4 at a concrete input. -/
theorem port_exhaustion_error_propagates_from_start_witness :
    start_specific_server (fun _ => false) (ProxyManager.mk [] [23000])
        "b" false true
      = Except.error (PyError.runtimeError
          "Unable to succeed in selecting a random port.") :=
  port_exhaustion_error_propagates_from_start (fun _ => false)
    (ProxyManager.mk [] [23000]) "b" false true (by decide)

/-- Claim C5 (counterexample): a sweep over a single record whose
process future is unresolved blocks inside process_handle() rather than
skipping the record, refuting both that the reaper polls only records
with resolved futures and that it never blocks on an unresolved
future. -/
theorem reaper_blocks_on_unresolved_future :
    _check_processes_sweep (ProxyManager.mk
        [("a", SpecificServer.mk 23000 false false true)] [])
      = SweepResult.blocked "a" :=
  rfl

/-- Claim C5 (amended): the reaper calls process_handle() on every
record in order, blocking as soon as it reaches one whose future is
unresolved; when every record's future is resolved the sweep completes,
polls each child, removes a record and releases its port exactly when
the child has exited, and leaves running children untouched. -/
theorem reaper_sweep_removes_exactly_exited :
    (∀ m : ProxyManager, (∀ p ∈ m.servers, p.2.resolved = true) →
        _check_processes_sweep m
          = SweepResult.done (ProxyManager.mk
              (m.servers.filter (fun p => !p.2.exited))
              (m.free_ports
                ++ (m.servers.filter (fun p => p.2.exited)).map
                  (fun p => p.2.port))))
    ∧ (∀ (cid : String) (server : SpecificServer)
        (rest : List (String × SpecificServer)) (free : List Nat),
        server.resolved = false →
        _check_processes_sweep (ProxyManager.mk ((cid, server) :: rest)
            free)
          = SweepResult.blocked cid) := by
  constructor
  · intro m h
    unfold _check_processes_sweep
    rw [sweepGo_all_resolved m.servers [] m.free_ports h]
    simp
  · intro cid server rest free h
    exact sweepGo_blocked cid server rest [] free h

/-- Witness for the amended claim C5 at a concrete input: the exited
record "a" is removed and its port released, the running record "b" is
untouched. -/
theorem reaper_sweep_removes_exactly_exited_witness :
    _check_processes_sweep (ProxyManager.mk
        [("a", SpecificServer.mk 23000 true true true),
         ("b", SpecificServer.mk 23001 true false true)]
        [23002])
      = SweepResult.done (ProxyManager.mk
          [("b", SpecificServer.mk 23001 true false true)]
          [23002, 23000]) :=
  reaper_sweep_removes_exactly_exited.1
    (ProxyManager.mk
      [("a", SpecificServer.mk 23000 true true true),
       ("b", SpecificServer.mk 23001 true false true)]
      [23002])
    (by decide)

/-- Claim C6: for any inbound first message whose discriminator is init
and whose encoded job_config field is C, the message produced by the
handshake rewrite has job_config = dumps(env_prep(loads(C))) — where an
empty C decodes to the default JobConfig — and every other field of the
message (here req_id) is identical to the inbound message; the tail of
the sequence is left unread. -/
theorem prepare_runtime_init_req_rewrites_job_config
    (loads : List Nat → JobConfig) (dumps : JobConfig → List Nat)
    (m : DataRequest) (rest : List DataRequest) (req : InitRequest)
    (h : m.variant = some (DataVariant.init req)) :
    prepare_runtime_init_req loads dumps (m :: rest)
      = some ((DataRequest.mk m.req_id
            (some (DataVariant.init (InitRequest.mk
              (dumps (ray_client_server_env_prep
                (if req.job_config = [] then defaultJobConfig
                 else loads req.job_config)))))),
          ray_client_server_env_prep
            (if req.job_config = [] then defaultJobConfig
             else loads req.job_config)),
        rest) := by
  cases m with
  | mk rid variant =>
      have h2 : variant = some (DataVariant.init req) := h
      subst h2
      rfl

/-- Witness for claim C6 at a concrete input: a non-empty job_config
is decoded, passed through the hook, re-encoded, and the req_id and the
tail survive untouched. -/
theorem prepare_runtime_init_req_rewrites_job_config_witness :
    prepare_runtime_init_req (fun _ => JobConfig.mk "env")
        (fun job_config => [job_config.runtime_env.length])
        [DataRequest.mk 3 (some (DataVariant.init (InitRequest.mk [7, 7]))),
         DataRequest.mk 4 none]
      = some ((DataRequest.mk 3
            (some (DataVariant.init (InitRequest.mk [3]))),
          JobConfig.mk "env"),
        [DataRequest.mk 4 none]) :=
  prepare_runtime_init_req_rewrites_job_config
    (fun _ => JobConfig.mk "env")
    (fun job_config => [job_config.runtime_env.length])
    (DataRequest.mk 3 (some (DataVariant.init (InitRequest.mk [7, 7]))))
    [DataRequest.mk 4 none]
    (InitRequest.mk [7, 7]) rfl

/-- Claim C7: for any client message sequence starting with an init
message, with the backend spawn and channel lookup succeeding, the
sequence delivered to the backend Datapath stream is the rewritten first
message followed by the remaining client messages in their inbound
order: the rewritten first message is on the splice queue before the
forwarder starts, so it precedes every forwarded message. -/
theorem Datapath_delivers_rewritten_first_message_first
    (loads : List Nat → JobConfig) (dumps : JobConfig → List Nat)
    (client_id : String) (m0 : DataRequest) (ms : List DataRequest)
    (p : DataRequest × JobConfig) (rest : List DataRequest)
    (hcid : client_id ≠ "")
    (hprep : prepare_runtime_init_req loads dumps (m0 :: ms)
      = some (p, rest)) :
    DataServicerProxy.Datapath loads dumps client_id true true (m0 :: ms)
      = DatapathOutcome.spliced (p.1 :: ms) := by
  have hrest : rest = ms :=
    prepare_runtime_init_req_rest loads dumps m0 ms p rest hprep
  subst hrest
  obtain ⟨pm, pj⟩ := p
  simp [DataServicerProxy.Datapath, hcid, hprep]

/-- Witness for claim C7 at a concrete input: the backend receives the
rewritten init message first, then the two tail messages in order. -/
theorem Datapath_delivers_rewritten_first_message_first_witness :
    DataServicerProxy.Datapath (fun _ => JobConfig.mk "w")
        (fun _ => [9]) "client-1" true true
        [DataRequest.mk 0 (some (DataVariant.init (InitRequest.mk []))),
         DataRequest.mk 1 none, DataRequest.mk 2 none]
      = DatapathOutcome.spliced
          [DataRequest.mk 0 (some (DataVariant.init (InitRequest.mk [9]))),
           DataRequest.mk 1 none, DataRequest.mk 2 none] :=
  Datapath_delivers_rewritten_first_message_first
    (fun _ => JobConfig.mk "w") (fun _ => [9]) "client-1"
    (DataRequest.mk 0 (some (DataVariant.init (InitRequest.mk []))))
    [DataRequest.mk 1 none, DataRequest.mk 2 none]
    (DataRequest.mk 0 (some (DataVariant.init (InitRequest.mk [9]))),
      JobConfig.mk "")
    [DataRequest.mk 1 none, DataRequest.mk 2 none]
    (by decide) rfl

/-- Claim C8: a ClusterInfo request whose type is PING is answered
locally with json.dumps of the empty object, the context untouched, the
manager untouched; and the outcome is the same whatever the manager
state, in particular with an empty record map, so no backend channel is
looked up or contacted. -/
theorem ClusterInfo_ping_answered_locally
    (m : ProxyManager) (context : RpcContext) (request : Nat)
    (t : ClusterInfoType) (h : t = ClusterInfoType.PING) :
    RayletServicerProxy.ClusterInfo m context request t
        = UnaryCall.mk (UnaryOutcome.localJson json_dumps_empty_object)
            context m
    ∧ (RayletServicerProxy.ClusterInfo m context request t).outcome
        = (RayletServicerProxy.ClusterInfo (ProxyManager.mk [] [])
            context request t).outcome := by
  subst h
  exact ⟨rfl, rfl⟩

/-- Witness for claim C8 at a concrete input: a PING with no metadata
and no backend records is answered locally. -/
theorem ClusterInfo_ping_answered_locally_witness :
    RayletServicerProxy.ClusterInfo (ProxyManager.mk [] [])
        (RpcContext.mk [] none) 5 ClusterInfoType.PING
      = UnaryCall.mk (UnaryOutcome.localJson json_dumps_empty_object)
          (RpcContext.mk [] none) (ProxyManager.mk [] []) :=
  (ClusterInfo_ping_answered_locally (ProxyManager.mk [] [])
    (RpcContext.mk [] none) 5 ClusterInfoType.PING rfl).1

/-- Claim C9: the shutdown hook waits on each record's process future
with the 0.1 s bound, sends the non-graceful kill to exactly the records
whose handle resolved within the bound (in iteration order), swallows
the TimeoutError of every record whose future is still unresolved, and
propagates no error: the result is Except.ok on every input. -/
theorem cleanup_kills_resolved_and_swallows_timeouts
    (servers : List (String × SpecificServer)) :
    _cleanup servers
      = Except.ok ((servers.filter (fun p => p.2.resolved)).map
          (fun p => p.2.port)) := by
  induction servers with
  | nil => rfl
  | cons hd rest ih =>
      obtain ⟨cid, server⟩ := hd
      cases hres : server.resolved with
      | true => simp [_cleanup, hres, ih, List.filter_cons, Except.map]
      | false => simp [_cleanup, hres, ih, List.filter_cons, Except.map]

/-- Claim C10: the startup fence requires strictly more than three
command-line entries together with the literal at index 2; a trace of
observations whose command lines all have exactly three entries can
never end the polling loop through the fence, so the loop continues
until the process exits. -/
theorem startup_fence_requires_cmdline_longer_than_three :
    (∀ cmd : List String,
        fence_crossed cmd = true
          ↔ (3 < cmd.length
              ∧ cmd.getD 2 "" = "ray.util.client.server"))
    ∧ (∀ trace : List (Option Int × List String),
        (∀ obs ∈ trace, obs.2.length = 3) →
        startup_poll_loop trace ≠ StartupPollExit.fence_passed) := by
  constructor
  · intro cmd
    simp [fence_crossed]
  · intro trace
    induction trace with
    | nil => intro _; simp [startup_poll_loop]
    | cons obs rest ih =>
        obtain ⟨poll_result, cmd⟩ := obs
        intro h
        have hlen : cmd.length = 3 :=
          h (poll_result, cmd) (List.mem_cons_self _ _)
        cases poll_result with
        | some v => simp [startup_poll_loop]
        | none =>
            have hf : fence_crossed cmd = false := by
              simp [fence_crossed, hlen]
            simp only [startup_poll_loop, Option.isSome_none,
              Bool.false_eq_true, if_false, hf]
            exact ih (fun o ho => h o (List.mem_cons_of_mem _ ho))

/-- Witness for claim C10 at a concrete input: a live child whose
three-entry command line carries the literal at index 2 does not pass
the fence; the loop runs on and ends only when the child exits. -/
theorem startup_fence_requires_cmdline_longer_than_three_witness :
    startup_poll_loop
        [(none, ["python", "-m", "ray.util.client.server"]),
         (some 1, ["python", "-m", "ray.util.client.server"])]
      ≠ StartupPollExit.fence_passed :=
  startup_fence_requires_cmdline_longer_than_three.2
    [(none, ["python", "-m", "ray.util.client.server"]),
     (some 1, ["python", "-m", "ray.util.client.server"])]
    (by decide)
